import Mathlib

/-!
Verification of the `crossplane diff` preview tool (cluster-state diff for
composite resources).

The development shallowly embeds the parts of the program that the verified
properties touch:

* the iterative render loop of `DefaultDiffProcessor.RenderWithRequirements`
  (`diffprocessor/diff_processor.go`), including its requirement-discovery
  bookkeeping keyed by `apiVersion/name`;
* `ProcessResource`, up to and including the rendering stage (the later
  merge / validate / diff-print stages are not needed by any property here);
* the composition selection logic of `ClusterClient.FindMatchingComposition`
  together with claim-to-XR resolution through XRDs;
* the memoised `GetXRDs` cache;
* `GetFunctionsFromPipeline`;
* the resource manager's `FetchCurrentObject` and `UpdateOwnerRefs`;
* both revisions of `cleanupForDiff` and the structured
  `GenerateDiffWithOptions`.

Pure functions become Lean functions; the stateful XRD cache becomes explicit
state passing; fallible operations return `Except`.  External collaborators
(the renderer, the requirements provider, the Kubernetes API, YAML
marshalling, the line differ) are parameters of the functions that call them.

Where the repository ships only the unit tests of a component (the cluster
client and the resource manager), the component is modelled from the
specification text and pinned against the concrete scenarios of those tests;
such definitions carry a `Modelled from the spec:` doc comment.
-/

deriving instance DecidableEq for Except

namespace CrossplaneDiff

/-! ## Group/version/kind data and compositions -/

/-- A group/version/kind triple, as used by composition selection. -/
structure GVK where
  group : String
  version : String
  kind : String
  deriving DecidableEq, Repr

/-- The `apiVersion` string of a GVK (`group/version`). -/
def GVK.apiVersion (g : GVK) : String := g.group ++ "/" ++ g.version

/-- The display form used in error messages: `group/version, Kind=kind`. -/
def GVK.display (g : GVK) : String :=
  g.group ++ "/" ++ g.version ++ ", Kind=" ++ g.kind

/-- One entry of an XRD's `spec.versions` list. -/
structure XrdVersion where
  name : String
  served : Bool
  referenceable : Bool
  deriving DecidableEq, Repr

/-- A CompositeResourceDefinition, restricted to the fields composition
selection reads: `spec.group`, `spec.names.kind`, `spec.claimNames.kind` and
`spec.versions`. -/
structure XRD where
  group : String
  namesKind : String
  claimKind : Option String
  versions : List XrdVersion
  deriving DecidableEq, Repr

/-- An input composite resource (or claim), restricted to the fields
composition selection reads: its GVK, its `metadata.name`, and the optional
`spec.compositionRef.name` and `spec.compositionSelector.matchLabels`. -/
structure XR where
  group : String
  version : String
  kind : String
  name : String
  compositionRefName : Option String
  selectorMatchLabels : Option (List (String × String))
  deriving DecidableEq, Repr

/-- The GVK an XR carries on its own manifest. -/
def XR.gvk (x : XR) : GVK := ⟨x.group, x.version, x.kind⟩

/-- One pipeline step of a composition: its step name and the name of the
function it references. -/
structure PipelineStep where
  step : String
  functionRefName : String
  deriving DecidableEq, Repr

/-- A Composition, restricted to the fields the tool reads:
`metadata.name`, `metadata.labels`, `spec.compositeTypeRef`, `spec.mode`
(`none` models an unset mode pointer) and `spec.pipeline`. -/
structure Composition where
  name : String
  compositeTypeRefAPIVersion : String
  compositeTypeRefKind : String
  labels : List (String × String)
  mode : Option String
  pipeline : List PipelineStep
  deriving DecidableEq, Repr

/-- Whether a composition's `compositeTypeRef` matches a GVK exactly
(apiVersion, i.e. group+version, and kind). -/
def Composition.matchesGVK (c : Composition) (g : GVK) : Bool :=
  decide (c.compositeTypeRefAPIVersion = g.apiVersion ∧
          c.compositeTypeRefKind = g.kind)

/-- Whether every selector label pair occurs among a composition's labels. -/
def labelsInclude (labels sel : List (String × String)) : Bool :=
  sel.all (fun kv => labels.contains kv)

/-! ## Composition selection (FindMatchingComposition) -/

/-- The failure modes of `FindMatchingComposition`.  Each constructor carries
the data that appears in the corresponding error message. -/
inductive MatchErr where
  /-- `composition <name> referenced in <gvk>/<obj> not found` -/
  | referencedNotFound (compName : String) (gvk : GVK) (objName : String)
  /-- `composition <name> is not compatible with <gvk>` -/
  | referencedIncompatible (compName : String) (gvk : GVK)
  /-- `ambiguous composition selection: multiple compositions match` -/
  | ambiguousSelectorMatch
  /-- `no compatible composition found matching labels <m> for <gvk>/<obj>` -/
  | noCompatibleLabeled (sel : List (String × String)) (gvk : GVK) (objName : String)
  /-- `no composition found for <gvk>` -/
  | noCompositionFound (gvk : GVK)
  /-- `ambiguous composition selection: multiple compositions exist for <gvk>` -/
  | ambiguousDefault (gvk : GVK)
  /-- `no referenceable version found in XRD` -/
  | noReferenceableVersion
  deriving DecidableEq, Repr

/-- Renders a selector as `map[k:v ...]` (abstracting Go's map formatting). -/
def renderLabels (sel : List (String × String)) : String :=
  "map[" ++ String.intercalate " " (sel.map (fun kv => kv.1 ++ ":" ++ kv.2)) ++ "]"

/-- The exact error message text of each `MatchErr`. -/
def MatchErr.message : MatchErr → String
  | .referencedNotFound n g obj =>
      "composition " ++ n ++ " referenced in " ++ g.display ++ "/" ++ obj ++ " not found"
  | .referencedIncompatible n g =>
      "composition " ++ n ++ " is not compatible with " ++ g.display
  | .ambiguousSelectorMatch =>
      "ambiguous composition selection: multiple compositions match"
  | .noCompatibleLabeled sel g obj =>
      "no compatible composition found matching labels " ++ renderLabels sel ++
      " for " ++ g.display ++ "/" ++ obj
  | .noCompositionFound g => "no composition found for " ++ g.display
  | .ambiguousDefault g =>
      "ambiguous composition selection: multiple compositions exist for " ++ g.display
  | .noReferenceableVersion => "no referenceable version found in XRD"

/-- Modelled from the spec: `FindMatchingComposition`'s claim detection (the
cluster client source is absent from the repository; only its tests are
present).  Scans the cached XRDs for one in the XR's group whose
`claimNames.kind` equals the XR's kind. -/
def claimXRD (xrds : List XRD) (x : XR) : Option XRD :=
  xrds.find? (fun d => decide (d.group = x.group ∧ d.claimKind = some x.kind))

/-- Modelled from the spec: the effective GVK used for composition
compatibility.  For a claim kind it is built from the owning XRD's group, its
version flagged `referenceable: true` and the XRD's `names.kind`; if no
version is referenceable the lookup fails.  For a non-claim XR it is the XR's
own GVK. -/
def effectiveGVK (xrds : List XRD) (x : XR) : Except MatchErr GVK :=
  match claimXRD xrds x with
  | some d =>
      match d.versions.find? (fun v => v.referenceable) with
      | some v => .ok ⟨d.group, v.name, d.namesKind⟩
      | none => .error .noReferenceableVersion
  | none => .ok x.gvk

/-- Modelled from the spec: `FindMatchingComposition` (the cluster client
source is absent from the repository; only its tests are present).  Selection
is by direct reference, then label selector, then unique default, against the
cached compositions, with compatibility decided on the effective GVK. -/
def findMatchingComposition (comps : List Composition) (xrds : List XRD) (x : XR) :
    Except MatchErr Composition :=
  match effectiveGVK xrds x with
  | .error e => .error e
  | .ok g =>
      match x.compositionRefName with
      | some n =>
          match comps.find? (fun c => c.name == n) with
          | none => .error (.referencedNotFound n g x.name)
          | some c =>
              if c.matchesGVK g then .ok c else .error (.referencedIncompatible n g)
      | none =>
          match x.selectorMatchLabels with
          | some sel =>
              match comps.filter (fun c => labelsInclude c.labels sel && c.matchesGVK g) with
              | [] => .error (.noCompatibleLabeled sel g x.name)
              | [c] => .ok c
              | _ => .error .ambiguousSelectorMatch
          | none =>
              match comps.filter (fun c => c.matchesGVK g) with
              | [] => .error (.noCompositionFound g)
              | [c] => .ok c
              | _ => .error (.ambiguousDefault g)

/-! ## The render loop of RenderWithRequirements -/

/-- A cluster object as the render loop sees it: apiVersion, kind, name and
namespace (`ns`).  Only these fields feed the loop's bookkeeping keys. -/
structure Resource where
  apiVersion : String
  kind : String
  name : String
  ns : String := ""
  deriving DecidableEq, Repr

/-- A renderer-emitted requirement (opaque to the loop except for being
passed to the requirements provider). -/
structure Requirement where
  apiVersion : String
  kind : String
  name : String
  deriving DecidableEq, Repr

/-- The renderer output, restricted to the field the loop inspects:
`Requirements`.  `none` models a nil Go slice (the reflection `IsNil` check),
`some []` a non-nil empty slice. -/
structure Outputs where
  requirements : Option (List Requirement)
  deriving DecidableEq, Repr

/-- The zero value `render.Outputs{}` returned on abort paths. -/
def Outputs.zero : Outputs := ⟨none⟩

/-- The seen-set key of the render loop:
`fmt.Sprintf("%s/%s", res.GetAPIVersion(), res.GetName())`. -/
def loopKey (r : Resource) : String := r.apiVersion ++ "/" ++ r.name

/-- Modelled from the spec: the removal-detection key `resourceKey`
(`apiVersion/kind/name`, namespace not included), whose implementation is
absent from the repository; its unit test `TestResourceKey` pins the format
`example.org/v1/TestResource/test-resource`. -/
def resourceKey (r : Resource) : String :=
  r.apiVersion ++ "/" ++ r.kind ++ "/" ++ r.name

/-- The loop's mutable bookkeeping: `renderResources` (extras passed to the
next render), `discoveredResources`, and `discoveredResourcesMap` (here the
list of keys already seen, in first-seen order). -/
structure LoopState where
  renderResources : List Resource
  discoveredResources : List Resource
  discoveredKeys : List String
  deriving DecidableEq, Repr

/-- The initial loop state: no extras, nothing discovered. -/
def LoopState.init : LoopState := ⟨[], [], []⟩

/-- Folds freshly provided resources into the loop state, skipping any whose
`loopKey` was already seen; the Boolean records whether at least one new
resource was added (`newResourcesFound`). -/
def addNewResources (st : LoopState) (adds : List Resource) : LoopState × Bool :=
  adds.foldl
    (fun acc r =>
      if loopKey r ∈ acc.1.discoveredKeys then acc
      else ({ renderResources := acc.1.renderResources ++ [r],
              discoveredResources := acc.1.discoveredResources ++ [r],
              discoveredKeys := acc.1.discoveredKeys ++ [loopKey r] }, true))
    (st, false)

/-- Why one pass of the loop body ended the loop (if it did). -/
inductive ExitKind where
  /-- `len(output.Requirements) == 0`: break, discovery complete. -/
  | noRequirements
  /-- requirement resolution produced no resources, or none not already
  seen: break, stable state. -/
  | noNewResources
  /-- render failed with no usable requirements: return wrapped error. -/
  | abortRender
  /-- `ProvideRequirements` failed: return wrapped error. -/
  | abortProvide
  /-- the `maxIterations` ceiling was reached. -/
  | cap
  deriving DecidableEq, Repr

/-- Result of one pass of the loop body: either the loop ends (with the
output/error pair the surrounding function will return), or it continues
with an updated state, remembering the last output and render error. -/
inductive StepOut where
  | exit : ExitKind → Outputs → Option String → StepOut
  | next : LoopState → Outputs → Option String → StepOut
  deriving DecidableEq, Repr

/-- One pass of the body of the `for iteration < maxIterations` loop in
`RenderWithRequirements`: render with the accumulated extras, abort when the
render failed and the output has no (nil) requirements, break when the
requirements list is empty, otherwise resolve requirements and either
abort (provider error), break (nothing new) or continue with the new extras. -/
def loopStep (render : List Resource → Outputs × Option String)
    (provide : List Requirement → Except String (List Resource))
    (st : LoopState) : StepOut :=
  let out := (render st.renderResources).1
  let renderErr := (render st.renderResources).2
  let hasRequirements := out.requirements.isSome
  if renderErr.isSome && !hasRequirements then
    .exit .abortRender Outputs.zero
      (some ("cannot render resources: " ++ renderErr.getD ""))
  else if (out.requirements.getD []).isEmpty then
    .exit .noRequirements out renderErr
  else
    match provide (out.requirements.getD []) with
    | .error e =>
        .exit .abortProvide Outputs.zero
          (some ("failed to process requirements: " ++ e))
    | .ok adds =>
        if adds.isEmpty then .exit .noNewResources out renderErr
        else if (addNewResources st adds).2 then
          .next (addNewResources st adds).1 out renderErr
        else .exit .noNewResources out renderErr

/-- The outcome of the whole loop: the exit reason, the number of iterations
performed (one render call each), and the output/error pair returned. -/
structure LoopResult where
  exit : ExitKind
  iterations : Nat
  out : Outputs
  err : Option String
  deriving DecidableEq, Repr

/-- Runs the loop body until it exits or the remaining fuel (iterations left
below the ceiling) runs out, carrying `lastOutput`/`lastRenderErr`. -/
def runLoopAux (render : List Resource → Outputs × Option String)
    (provide : List Requirement → Except String (List Resource)) :
    Nat → LoopState → Nat → Outputs → Option String → LoopResult
  | 0, _, iters, lastOut, lastErr => ⟨.cap, iters, lastOut, lastErr⟩
  | Nat.succ fuel, st, iters, _, _ =>
      match loopStep render provide st with
      | .exit k o e => ⟨k, iters + 1, o, e⟩
      | .next st2 o e => runLoopAux render provide fuel st2 (iters + 1) o e

/-- `const maxIterations = 10` — the hard iteration ceiling. -/
def maxIterations : Nat := 10

/-- The full requirements-discovery loop of `RenderWithRequirements`,
starting from empty extras and an empty seen set. -/
def runLoop (render : List Resource → Outputs × Option String)
    (provide : List Requirement → Except String (List Resource)) : LoopResult :=
  runLoopAux render provide maxIterations LoopState.init 0 Outputs.zero none

/-- The result of `RenderWithRequirements`: how many renders were performed
and the output/error pair returned to `ProcessResource`. -/
structure RWRResult where
  renderCalls : Nat
  out : Outputs
  err : Option String
  deriving DecidableEq, Repr

/-- `RenderWithRequirements`: a composition not in `Pipeline` mode (or with
no mode set) gets a single render with an empty extra-resources slice;
otherwise the iterative discovery loop runs. -/
def renderWithRequirements (render : List Resource → Outputs × Option String)
    (provide : List Requirement → Except String (List Resource))
    (comp : Composition) : RWRResult :=
  if comp.mode = some "Pipeline" then
    let r := runLoop render provide
    ⟨r.iterations, r.out, r.err⟩
  else
    ⟨1, (render []).1, (render []).2⟩

/-! ## GetFunctionsFromPipeline and ProcessResource -/

/-- The failure modes of `GetFunctionsFromPipeline`. -/
inductive PipeErr where
  /-- `Unsupported composition Mode <m>; supported types are [Pipeline]` -/
  | unsupportedMode (m : String)
  /-- `Unsupported Composition; no Mode found.` -/
  | noModeFound
  /-- `function <fn> referenced in pipeline step <step> not found` -/
  | functionNotFound (fn : String) (step : String)
  deriving DecidableEq, Repr

/-- Modelled from the spec: `GetFunctionsFromPipeline` (the cluster client
source is absent from the repository; its behaviour is pinned by
`TestClusterClient_GetFunctionsFromPipeline`).  A nil mode and any mode other
than `Pipeline` are errors; otherwise every pipeline step's function is
looked up by name in the function cache, in step order. -/
def getFunctionsFromPipeline (functions : List String) (comp : Composition) :
    Except PipeErr (List String) :=
  match comp.mode with
  | none => .error .noModeFound
  | some m =>
      if m = "Pipeline" then
        comp.pipeline.mapM (fun st =>
          match functions.find? (fun f => f == st.functionRefName) with
          | some f => Except.ok f
          | none => Except.error (.functionNotFound st.functionRefName st.step))
      else .error (.unsupportedMode m)

/-- The failure modes of `ProcessResource` up to the rendering stage, each a
wrap of the failing collaborator's error. -/
inductive ProcErr where
  /-- wrap `cannot find matching composition` -/
  | cannotFindComposition (e : MatchErr)
  /-- wrap `cannot get functions from pipeline` -/
  | cannotGetFunctions (e : PipeErr)
  /-- wrap `cannot render resources with requirements` -/
  | cannotRender (e : String)
  deriving DecidableEq, Repr

/-- The outcome of `ProcessResource` up to the rendering stage, plus the
number of render calls it caused. -/
structure ProcResult where
  result : Except ProcErr Outputs
  renderCalls : Nat
  deriving DecidableEq, Repr

/-- `ProcessResource`, embedded up to and including the rendering stage (the
subsequent merge / validate / diff stages are not relevant to the verified
properties): find the matching composition, fetch the pipeline's functions,
then call `RenderWithRequirements`; each stage's failure aborts with a wrap. -/
def processResource (comps : List Composition) (xrds : List XRD)
    (functions : List String)
    (render : List Resource → Outputs × Option String)
    (provide : List Requirement → Except String (List Resource))
    (x : XR) : ProcResult :=
  match findMatchingComposition comps xrds x with
  | .error e => ⟨.error (.cannotFindComposition e), 0⟩
  | .ok comp =>
      match getFunctionsFromPipeline functions comp with
      | .error e => ⟨.error (.cannotGetFunctions e), 0⟩
      | .ok _ =>
          let r := renderWithRequirements render provide comp
          match r.err with
          | some e => ⟨.error (.cannotRender e), r.renderCalls⟩
          | none => ⟨.ok r.out, r.renderCalls⟩

/-! ## The memoised XRD cache (GetXRDs) -/

/-- The cluster client state relevant to `GetXRDs`: the cached XRD list (XRDs
opaque here), the `xrdsLoaded` flag, and instrumentation counting issued and
successful underlying list calls. -/
structure XRDCacheState where
  cachedXRDs : List String
  xrdsLoaded : Bool
  apiCalls : Nat
  succCalls : Nat
  deriving DecidableEq, Repr

/-- The client state at process start: nothing cached, flag unset. -/
def XRDCacheState.start : XRDCacheState := ⟨[], false, 0, 0⟩

/-- Modelled from the spec: `GetXRDs` (the cluster client source is absent
from the repository; its behaviour is pinned by `TestClusterClient_GetXRDs`).
When `xrdsLoaded` is set the cached slice is returned without touching the
API; otherwise the list API is called (`api` maps the index of the issued
call to its result), a success — even an empty list — populates the cache and
sets the flag, and a failure is wrapped `cannot list XRDs` leaving the flag
unset. -/
def getXRDs (api : Nat → Except String (List String)) (s : XRDCacheState) :
    Except String (List String) × XRDCacheState :=
  if s.xrdsLoaded then (.ok s.cachedXRDs, s)
  else
    match api s.apiCalls with
    | .ok xs => (.ok xs, ⟨xs, true, s.apiCalls + 1, s.succCalls + 1⟩)
    | .error e =>
        (.error ("cannot list XRDs: " ++ e),
         { s with apiCalls := s.apiCalls + 1 })

/-- The client state after `n` successive `GetXRDs` calls. -/
def getXRDsIter (api : Nat → Except String (List String)) : Nat → XRDCacheState
  | 0 => XRDCacheState.start
  | Nat.succ n => (getXRDs api (getXRDsIter api n)).2

/-! ## The resource manager: FetchCurrentObject and UpdateOwnerRefs -/

/-- An owner reference of a cluster object. -/
structure OwnerRef where
  apiVersion : String
  kind : String
  name : String
  uid : String
  deriving DecidableEq, Repr

/-- A cluster object as the resource manager sees it.  `ns` is the
namespace; `extra` stands for all remaining content (spec, data, ...),
untouched by the resource manager. -/
structure KObj where
  apiVersion : String
  kind : String
  name : String
  generateName : String
  ns : String
  uid : String
  labels : List (String × String)
  annotations : List (String × String)
  ownerRefs : List OwnerRef
  extra : List (String × String)
  deriving DecidableEq, Repr

/-- Looks an annotation up by key. -/
def KObj.annotation (o : KObj) (k : String) : Option String :=
  (o.annotations.find? (fun kv => kv.1 == k)).map (fun kv => kv.2)

/-- The `crossplane.io/composition-resource-name` annotation key. -/
def compResNameAnnotationKey : String := "crossplane.io/composition-resource-name"

/-- Result of a direct get against the cluster. -/
inductive DirectGet where
  | found : KObj → DirectGet
  | notFound : DirectGet
  | apiError : String → DirectGet
  deriving DecidableEq, Repr

/-- What `FetchCurrentObject` returns: the current object (if any), the
`isNew` flag, and a propagated error (if any). -/
structure FetchResult where
  current : Option KObj
  isNew : Bool
  err : Option String
  deriving DecidableEq, Repr

/-- Go's `strings.HasPrefix`, evaluated on the character lists (the
string-level primitive does not reduce definitionally). -/
def strStartsWith (p s : String) : Bool := p.data.isPrefixOf s.data

/-- The survivors of the owner-label matching rule: candidates whose
`composition-resource-name` annotation equals the desired object's, further
required — when `generateName` is set — to have `desired.generateName` as a
name prefix. -/
def genNameSurvivors (desired : KObj) (cands : List KObj) : List KObj :=
  let anns := cands.filter (fun c =>
    c.annotation compResNameAnnotationKey == desired.annotation compResNameAnnotationKey)
  if desired.generateName ≠ "" then
    anns.filter (fun c => strStartsWith desired.generateName c.name)
  else anns

/-- Modelled from the spec: `FetchCurrentObject` (the resource manager source
is absent from the repository; its behaviour is pinned by
`TestDefaultResourceManager_FetchCurrentObject`).  A desired object with a
name is first looked up directly (found → return, other API error →
propagate).  Otherwise — and on not-found — with a composite present, the
candidates carrying the `crossplane.io/composite=<composite.name>` owner
label are listed (`listByOwnerLabel` is keyed by the composite's name),
filtered by annotation equality and, when `generateName` is set, by the
generate-name prefix; exactly one survivor is returned with `isNew = false`,
and every other case (zero or several survivors, list failure, no composite)
yields `isNew = true` with no current object. -/
def fetchCurrentObject
    (getResource : String → String → DirectGet)
    (listByOwnerLabel : String → Except String (List KObj))
    (composite : Option KObj) (desired : KObj) : FetchResult :=
  let viaLabel : FetchResult :=
    match composite with
    | none => ⟨none, true, none⟩
    | some comp =>
        match listByOwnerLabel comp.name with
        | .error _ => ⟨none, true, none⟩
        | .ok cands =>
            match genNameSurvivors desired cands with
            | [c] => ⟨some c, false, none⟩
            | _ => ⟨none, true, none⟩
  if desired.name ≠ "" then
    match getResource desired.ns desired.name with
    | .found cur => ⟨some cur, false, none⟩
    | .notFound => viaLabel
    | .apiError e => ⟨none, false, some e⟩
  else viaLabel

/-- Whether an owner reference matches a parent's apiVersion, kind and name. -/
def matchesParent (p : KObj) (r : OwnerRef) : Bool :=
  decide (r.apiVersion = p.apiVersion ∧ r.kind = p.kind ∧ r.name = p.name)

/-- The per-reference body of `UpdateOwnerRefs`: an empty UID is filled with
the parent's UID on a match and with the generated UID otherwise; a non-empty
UID is kept. -/
def updateRef (genUID : String) (parent : Option KObj) (r : OwnerRef) : OwnerRef :=
  if r.uid ≠ "" then r
  else
    match parent with
    | some p => if matchesParent p r then { r with uid := p.uid }
                else { r with uid := genUID }
    | none => { r with uid := genUID }

/-- Modelled from the spec: `UpdateOwnerRefs` (the resource manager source is
absent from the repository; its behaviour is pinned by
`TestDefaultResourceManager_UpdateOwnerRefs`).  Every owner reference of the
child is rewritten by `updateRef`; no other field of the child changes. -/
def updateOwnerRefs (genUID : String) (parent : Option KObj) (child : KObj) : KObj :=
  { child with ownerRefs := child.ownerRefs.map (updateRef genUID parent) }

/-! ## cleanupForDiff (both revisions) and GenerateDiffWithOptions -/

/-- A cluster object as the diff formatter sees it: the `metadata` and `spec`
nested maps (absent-or-not-a-map modelled as `none`, their values opaque
strings), the `status` subtree (opaque), and all other top-level fields. -/
structure UObj where
  metadata : Option (List (String × String))
  spec : Option (List (String × String))
  status : Option String
  other : List (String × String)
  deriving DecidableEq, Repr

/-- The metadata fields `cleanupForDiff` deletes. -/
def volatileMetadataFields : List String :=
  ["resourceVersion", "uid", "generation", "creationTimestamp",
   "managedFields", "selfLink", "ownerReferences"]

/-- `cleanupForDiff` as in `diffprocessor/diff_formatter.go` (the earlier
processor revision): deletes the volatile metadata fields and the whole
`status`; it does not touch `spec`. -/
def FormatterV1.cleanupForDiff (o : UObj) : UObj :=
  let o1 :=
    match o.metadata with
    | some md =>
        let md2 := md.filter (fun (kv : String × String) => !(volatileMetadataFields.contains kv.1))
        { o with metadata := some md2 }
    | none => o
  { o1 with status := none }

/-- `cleanupForDiff` as in the structured diff formatter (the current
processor revision): deletes the volatile metadata fields, deletes
`spec.resourceRefs`, and deletes the whole `status`. -/
def FormatterV2.cleanupForDiff (o : UObj) : UObj :=
  let o1 :=
    match o.metadata with
    | some md =>
        let md2 := md.filter (fun (kv : String × String) => !(volatileMetadataFields.contains kv.1))
        { o with metadata := some md2 }
    | none => o
  let o2 :=
    match o1.spec with
    | some sp =>
        let sp2 := sp.filter (fun (kv : String × String) => !(kv.1 == "resourceRefs"))
        { o1 with spec := some sp2 }
    | none => o1
  { o2 with status := none }

/-- The diff type of a structured resource diff. -/
inductive DiffType where
  | added
  | removed
  | modified
  | equal
  deriving DecidableEq, Repr

/-- A structured resource diff: its type and its line diffs (line diffs
opaque here; an `equal` diff has none). -/
structure ResourceDiff where
  diffType : DiffType
  lineDiffs : List String
  deriving DecidableEq, Repr

/-- `GenerateDiffWithOptions` of the current revision, embedded over an
abstract YAML marshaller (`marshal`) and line differ (`getLineDiff`).  For
two present objects it first compares them as a whole, then compares their
`cleanupForDiff` images, and only then marshals and line-diffs; every
equality short-circuits to an `equal` diff with no line diffs.  An absent
side marshals to the empty string (added/removed); two absent sides are an
error. -/
def generateDiffWithOptions (marshal : UObj → String)
    (getLineDiff : String → String → List String)
    (current desired : Option UObj) : Except String ResourceDiff :=
  match current, desired with
  | none, none => .error "both current and desired cannot be nil"
  | some c, some d =>
      if c = d then .ok ⟨.equal, []⟩
      else if FormatterV2.cleanupForDiff c = FormatterV2.cleanupForDiff d then
        .ok ⟨.equal, []⟩
      else
        let currentStr := marshal (FormatterV2.cleanupForDiff c)
        let desiredStr := marshal (FormatterV2.cleanupForDiff d)
        if desiredStr = currentStr then .ok ⟨.equal, []⟩
        else
          let lds := getLineDiff currentStr desiredStr
          if lds.isEmpty then .ok ⟨.equal, []⟩
          else .ok ⟨.modified, lds⟩
  | none, some d =>
      let desiredStr := marshal (FormatterV2.cleanupForDiff d)
      if desiredStr = "" then .ok ⟨.equal, []⟩
      else
        let lds := getLineDiff "" desiredStr
        if lds.isEmpty then .ok ⟨.equal, []⟩
        else .ok ⟨.added, lds⟩
  | some c, none =>
      let currentStr := marshal (FormatterV2.cleanupForDiff c)
      if ("" : String) = currentStr then .ok ⟨.equal, []⟩
      else
        let lds := getLineDiff currentStr ""
        if lds.isEmpty then .ok ⟨.equal, []⟩
        else .ok ⟨.removed, lds⟩

/-! ## Concrete fixtures used by witnesses and counterexamples -/

/-- A requirement that keeps resolving to the same resource. -/
def c1Req : Requirement := ⟨"example.org/v1", "ExtraResource", "foo"⟩

/-- The resource `c1Req` resolves to. -/
def c1Res : Resource := ⟨"example.org/v1", "ExtraResource", "foo", ""⟩

/-- A renderer that always emits the same single requirement. -/
def c1Render : List Resource → Outputs × Option String :=
  fun _ => (⟨some [c1Req]⟩, none)

/-- A provider that always resolves to the same single resource. -/
def c1Provide : List Requirement → Except String (List Resource) :=
  fun _ => .ok [c1Res]

/-- A requirement used by the render-error scenarios. -/
def c3Req : Requirement := ⟨"example.org/v1", "ExtraResource", "bar"⟩

/-- The resource `c3Req` resolves to. -/
def c3Res : Resource := ⟨"example.org/v1", "ExtraResource", "bar", ""⟩

/-- A renderer that fails but still reports one requirement. -/
def c3Render : List Resource → Outputs × Option String :=
  fun _ => (⟨some [c3Req]⟩, some "render boom")

/-- A renderer that fails with nil requirements. -/
def c3RenderNil : List Resource → Outputs × Option String :=
  fun _ => (⟨none⟩, some "render boom")

/-- A provider that resolves every requirement to `c3Res`. -/
def c3Provide : List Requirement → Except String (List Resource) :=
  fun _ => .ok [c3Res]

/-- An XRD whose versions carry no `referenceable: true` flag
(`ClaimResourceWithNoReferenceableVersion` scenario). -/
def c2Xrd : XRD :=
  ⟨"example.org", "XExampleResource", some "ExampleResourceClaim",
   [⟨"v1", true, false⟩, ⟨"v2", true, false⟩]⟩

/-- A composition directly referenced by `c2XR`. -/
def c2Comp : Composition :=
  ⟨"matching-comp", "example.org/v1", "XExampleResource", [], none, []⟩

/-- A claim with a direct composition reference whose XRD has no
referenceable version. -/
def c2XR : XR :=
  ⟨"example.org", "v1", "ExampleResourceClaim", "test-claim",
   some "matching-comp", none⟩

/-- A composition compatible with `c2wXR` (`MatchingComposition` scenario). -/
def c2wComp : Composition :=
  ⟨"matching-comp", "example.org/v1", "XR1", [], none, []⟩

/-- A plain XR selecting by unique default. -/
def c2wXR : XR := ⟨"example.org", "v1", "XR1", "my-xr", none, none⟩

/-- The XRD of the `ClaimResource` scenario: claim kind
`ExampleResourceClaim`, referenceable version `v2`. -/
def c5Xrd : XRD :=
  ⟨"example.org", "XExampleResource", some "ExampleResourceClaim",
   [⟨"v1", true, false⟩, ⟨"v2", true, true⟩, ⟨"v3alpha1", true, false⟩]⟩

/-- The composition of the `ClaimResource` scenario, referencing the
XR type at the referenceable version `v2`. -/
def c5Comp : Composition :=
  ⟨"matching-comp", "example.org/v2", "XExampleResource", [], none, []⟩

/-- The claim of the `ClaimResource` scenario. -/
def c5XR : XR :=
  ⟨"example.org", "v1", "ExampleResourceClaim", "test-claim",
   some "matching-comp", none⟩

/-- A composition in `NonPipeline` mode matching `c4XR`. -/
def c4Comp : Composition :=
  ⟨"non-pipeline-comp", "example.org/v1", "XR1", [], some "NonPipeline", []⟩

/-- The XR processed against `c4Comp`. -/
def c4XR : XR := ⟨"example.org", "v1", "XR1", "my-xr", none, none⟩

/-- A renderer that succeeds with no requirements. -/
def c4Render : List Resource → Outputs × Option String := fun _ => (⟨none⟩, none)

/-- A provider that resolves nothing. -/
def c4Provide : List Requirement → Except String (List Resource) := fun _ => .ok []

/-- A list API whose every call succeeds with an empty XRD list. -/
def c6Api : Nat → Except String (List String) := fun _ => .ok []

/-- The first candidate of the generate-name scenario: name
`test-resource-abc123`, composition-resource-name `resource-a`. -/
def c7Cand1 : KObj :=
  { apiVersion := "example.org/v1", kind := "TestResource",
    name := "test-resource-abc123", generateName := "", ns := "", uid := "",
    labels := [("crossplane.io/composite", "parent-xr")],
    annotations := [(compResNameAnnotationKey, "resource-a")],
    ownerRefs := [], extra := [] }

/-- The second candidate: same name, composition-resource-name `resource-b`. -/
def c7Cand2 : KObj :=
  { apiVersion := "example.org/v1", kind := "TestResource",
    name := "test-resource-abc123", generateName := "", ns := "", uid := "",
    labels := [("crossplane.io/composite", "parent-xr")],
    annotations := [(compResNameAnnotationKey, "resource-b")],
    ownerRefs := [], extra := [] }

/-- The desired composed object: `generateName` set, no name,
composition-resource-name `resource-a`. -/
def c7Desired : KObj :=
  { apiVersion := "example.org/v1", kind := "TestResource",
    name := "", generateName := "test-resource-", ns := "", uid := "",
    labels := [("crossplane.io/composite", "parent-xr")],
    annotations := [(compResNameAnnotationKey, "resource-a")],
    ownerRefs := [], extra := [] }

/-- The composite (parent XR) of the generate-name scenario. -/
def c7Composite : KObj :=
  { apiVersion := "example.org/v1", kind := "XR", name := "parent-xr",
    generateName := "", ns := "", uid := "", labels := [], annotations := [],
    ownerRefs := [], extra := [] }

/-- The owner-label list call of the generate-name scenario. -/
def c7List : String → Except String (List KObj) :=
  fun owner => if owner = "parent-xr" then .ok [c7Cand1, c7Cand2] else .ok []

/-- A direct get that finds nothing. -/
def c7Get : String → String → DirectGet := fun _ _ => .notFound

/-- The parent XR of the owner-reference scenario, with UID `parent-uid`. -/
def c8Parent : KObj :=
  { apiVersion := "example.org/v1", kind := "XR", name := "parent-xr",
    generateName := "", ns := "", uid := "parent-uid", labels := [],
    annotations := [], ownerRefs := [], extra := [] }

/-- An owner reference matching `c8Parent` with an empty UID. -/
def c8RefMatch : OwnerRef := ⟨"example.org/v1", "XR", "parent-xr", ""⟩

/-- An owner reference not matching `c8Parent`, with an empty UID. -/
def c8RefOther : OwnerRef := ⟨"other.org/v1", "OtherKind", "other-name", ""⟩

/-- An owner reference whose UID is already set. -/
def c8RefSet : OwnerRef := ⟨"example.org/v1", "XR", "third", "keep-uid"⟩

/-- The child of the owner-reference scenario, carrying all three kinds of
owner references. -/
def c8Child : KObj :=
  { apiVersion := "example.org/v1", kind := "Child", name := "child-resource",
    generateName := "", ns := "", uid := "", labels := [], annotations := [],
    ownerRefs := [c8RefMatch, c8RefOther, c8RefSet], extra := [] }

/-- An object carrying every field `cleanupForDiff` is meant to strip,
including `spec.resourceRefs`. -/
def c9Obj : UObj :=
  ⟨some [("uid", "123"), ("resourceVersion", "42"), ("name", "web-service")],
   some [("resourceRefs", "refs"), ("field", "value")],
   some "status-content", []⟩

/-- Like `c9Obj` but with a different `spec.resourceRefs` value. -/
def c9Obj2 : UObj :=
  ⟨some [("uid", "456"), ("name", "web-service")],
   some [("resourceRefs", "other-refs"), ("field", "value")],
   none, []⟩

/-- A marshaller distinguishing objects by rendering them verbatim. -/
def c9Marshal : UObj → String := fun o => toString (repr o)

/-- A line differ returning one line per changed side. -/
def c9LineDiff : String → String → List String := fun a b => [a, b]

/-- The first resource of the key-collision scenario. -/
def c10Res1 : Resource := ⟨"example.org/v1", "ConfigMap", "shared", ""⟩

/-- The second resource: same apiVersion and name, different kind and
namespace. -/
def c10Res2 : Resource := ⟨"example.org/v1", "Secret", "shared", "ns2"⟩

/-- The first resource of the namespace-only collision scenario. -/
def c10Res3 : Resource := ⟨"example.org/v1", "ConfigMap", "shared", "ns-a"⟩

/-- The second resource of that scenario: same apiVersion, kind and name,
different namespace only. -/
def c10Res4 : Resource := ⟨"example.org/v1", "ConfigMap", "shared", "ns-b"⟩

/-! ## Claims as stated (for the refuted ones) -/

/-- Claim C1 as stated: every execution of the render loop either exits at an
iteration whose renderer output contains no requirements, or performs exactly
the 10-iteration ceiling; and none performs an 11th iteration. -/
abbrev renderLoopClaimC1 (render : List Resource → Outputs × Option String)
    (provide : List Requirement → Except String (List Resource)) : Prop :=
  (runLoop render provide).iterations ≤ maxIterations ∧
  ((runLoop render provide).exit = ExitKind.noRequirements ∨
   (runLoop render provide).iterations = maxIterations)

/-- Claim C2 as stated, as an executable check: `FindMatchingComposition`
either returns a composition whose `compositeTypeRef` matches the effective
GVK, or fails with one of the six enumerated messages — every `MatchErr`
except `noReferenceableVersion`. -/
def documentedC2Message (e : MatchErr) : Bool :=
  match e with
  | .noReferenceableVersion => false
  | _ => true

/-- Claim C2 as stated, applied to one input. -/
abbrev claimC2Check (comps : List Composition) (xrds : List XRD) (x : XR) : Bool :=
  match findMatchingComposition comps xrds x, effectiveGVK xrds x with
  | .ok c, .ok g => c.matchesGVK g
  | .ok _, .error _ => false
  | .error e, _ => documentedC2Message e

/-- Claim C4 as stated, applied to one input: when the matched composition is
not in `Pipeline` mode, `ProcessResource` reaches a single render. -/
abbrev claimC4Statement (comps : List Composition) (xrds : List XRD)
    (functions : List String)
    (render : List Resource → Outputs × Option String)
    (provide : List Requirement → Except String (List Resource)) (x : XR) : Prop :=
  ∀ comp, findMatchingComposition comps xrds x = .ok comp →
    comp.mode ≠ some "Pipeline" →
    (processResource comps xrds functions render provide x).renderCalls = 1

/-- Whether a normalisation removes `spec.resourceRefs` from every object. -/
abbrev stripsResourceRefs (cleanup : UObj → UObj) : Prop :=
  ∀ o sp, (cleanup o).spec = some sp →
    sp.find? (fun kv => kv.1 == "resourceRefs") = none

/-- Claim C9 as stated requires both `cleanupForDiff` revisions (both are
cited sources of the claim) to strip `spec.resourceRefs`. -/
abbrev claimC9Statement : Prop :=
  stripsResourceRefs FormatterV1.cleanupForDiff ∧
  stripsResourceRefs FormatterV2.cleanupForDiff

/-! ## Render-loop helper lemmas -/

/-- The loop body never exits with the `cap` marker; that marker is reserved
for fuel exhaustion in `runLoopAux`. -/
lemma loopStep_exit_ne_cap (render : List Resource → Outputs × Option String)
    (provide : List Requirement → Except String (List Resource)) (st : LoopState) :
    ∀ k o e, loopStep render provide st = .exit k o e → k ≠ ExitKind.cap := by
  intro k o e h
  unfold loopStep at h
  dsimp only at h
  split at h
  · injection h with h1 _ _; subst h1; decide
  · split at h
    · injection h with h1 _ _; subst h1; decide
    · split at h
      · injection h with h1 _ _; subst h1; decide
      · split at h
        · injection h with h1 _ _; subst h1; decide
        · split at h
          · exact StepOut.noConfusion h
          · injection h with h1 _ _; subst h1; decide

/-- The loop performs at most `iters + fuel` iterations, and exactly that
many when it runs out of fuel. -/
lemma runLoopAux_iterations (render : List Resource → Outputs × Option String)
    (provide : List Requirement → Except String (List Resource)) :
    ∀ fuel st iters lo le,
      (runLoopAux render provide fuel st iters lo le).iterations ≤ iters + fuel ∧
      ((runLoopAux render provide fuel st iters lo le).exit = ExitKind.cap →
        (runLoopAux render provide fuel st iters lo le).iterations = iters + fuel) := by
  intro fuel
  induction fuel with
  | zero => intro st iters lo le; simp [runLoopAux]
  | succ n ih =>
      intro st iters lo le
      rcases hs : loopStep render provide st with ⟨k, o, e⟩ | ⟨st2, o, e⟩
      · simp only [runLoopAux, hs]
        refine ⟨by omega, ?_⟩
        intro hk
        exact absurd hk (loopStep_exit_ne_cap render provide st k o e hs)
      · simp only [runLoopAux, hs]
        obtain ⟨h1, h2⟩ := ih st2 (iters + 1) o e
        exact ⟨by omega, fun hk => by have := h2 hk; omega⟩

/-! ## C1 — render-loop exit conditions and the iteration ceiling -/

/-- C1 (amended): every execution of the render loop performs at most 10
iterations, and it ends either at an iteration whose renderer output has no
requirements, or because requirement resolution produced nothing not already
seen, or by aborting (render failure without usable requirements, or provider
failure), or upon performing exactly the 10-iteration ceiling. -/
theorem render_loop_exit_conditions
    (render : List Resource → Outputs × Option String)
    (provide : List Requirement → Except String (List Resource)) :
    (runLoop render provide).iterations ≤ maxIterations ∧
    ((runLoop render provide).exit = ExitKind.noRequirements ∨
     (runLoop render provide).exit = ExitKind.noNewResources ∨
     (runLoop render provide).exit = ExitKind.abortRender ∨
     (runLoop render provide).exit = ExitKind.abortProvide ∨
     (runLoop render provide).iterations = maxIterations) := by
  have h := runLoopAux_iterations render provide maxIterations LoopState.init 0
    Outputs.zero none
  unfold runLoop
  refine ⟨by simpa using h.1, ?_⟩
  rcases hk : (runLoopAux render provide maxIterations LoopState.init 0
      Outputs.zero none).exit with _ | _ | _ | _ | _
  · exact Or.inl rfl
  · exact Or.inr (Or.inl rfl)
  · exact Or.inr (Or.inr (Or.inl rfl))
  · exact Or.inr (Or.inr (Or.inr (Or.inl rfl)))
  · exact Or.inr (Or.inr (Or.inr (Or.inr (by simpa using h.2 hk))))

/-- C1 counterexample: with a renderer that always emits the same requirement
and a provider that always resolves it to the same resource, the loop exits
at iteration 2 with a non-empty requirements output — neither the
no-requirements exit nor the 10-iteration ceiling. -/
theorem render_loop_claim_counterexample : ¬ renderLoopClaimC1 c1Render c1Provide := by
  decide

/-! ## C3 — render errors inside the loop -/

/-- C3: when a render call fails, the loop body inspects the requirements:
with nil requirements it aborts at once, and the loop returns the error
wrapped `cannot render resources`; with a non-empty requirements slice it
never takes the render-abort exit — it proceeds to requirement resolution,
and continues into the next iteration whenever resolution succeeds with
resources not yet seen. -/
theorem render_error_tolerated_or_aborted
    (render : List Resource → Outputs × Option String)
    (provide : List Requirement → Except String (List Resource))
    (st : LoopState) (out : Outputs) (e : String)
    (hrender : render st.renderResources = (out, some e)) :
    (out.requirements = none →
       loopStep render provide st =
         .exit .abortRender Outputs.zero (some ("cannot render resources: " ++ e)) ∧
       ∀ fuel iters lo le,
         runLoopAux render provide (Nat.succ fuel) st iters lo le =
           ⟨.abortRender, iters + 1, Outputs.zero,
            some ("cannot render resources: " ++ e)⟩) ∧
    (∀ r rs, out.requirements = some (r :: rs) →
       (∀ k o2 e2, loopStep render provide st = .exit k o2 e2 →
          k ≠ ExitKind.abortRender) ∧
       (∀ adds, provide (r :: rs) = .ok adds → (addNewResources st adds).2 = true →
          loopStep render provide st = .next (addNewResources st adds).1 out (some e))) := by
  constructor
  · intro hreq
    have hstep : loopStep render provide st =
        .exit .abortRender Outputs.zero (some ("cannot render resources: " ++ e)) := by
      simp [loopStep, hrender, hreq]
    refine ⟨hstep, ?_⟩
    intro fuel iters lo le
    simp [runLoopAux, hstep]
  · intro r rs hreq
    constructor
    · intro k o2 e2 hstep hk
      subst hk
      rcases hp : provide (r :: rs) with e1 | adds
      · simp [loopStep, hrender, hreq, hp] at hstep
      · by_cases hadds : adds.isEmpty <;>
          by_cases hnew : (addNewResources st adds).2 <;>
          simp [loopStep, hrender, hreq, hp, hadds, hnew] at hstep
    · intro adds hp hnew
      rcases adds with _ | ⟨a, as⟩
      · simp [addNewResources] at hnew
      · simp [loopStep, hrender, hreq, hp, hnew]

/-- C3 witness: a failing render with nil requirements aborts with the
wrapped error; a failing render with one requirement resolving to a fresh
resource continues into the next iteration. -/
theorem render_error_handling_witness :
    loopStep c3RenderNil c3Provide LoopState.init =
      .exit .abortRender Outputs.zero
        (some ("cannot render resources: " ++ "render boom")) ∧
    loopStep c3Render c3Provide LoopState.init =
      .next (addNewResources LoopState.init [c3Res]).1 ⟨some [c3Req]⟩
        (some "render boom") := by
  constructor
  · exact ((render_error_tolerated_or_aborted c3RenderNil c3Provide LoopState.init
      ⟨none⟩ "render boom" rfl).1 rfl).1
  · exact ((render_error_tolerated_or_aborted c3Render c3Provide LoopState.init
      ⟨some [c3Req]⟩ "render boom" rfl).2 c3Req [] rfl).2 [c3Res] rfl (by decide)

/-! ## C10 — discovery key vs removal key -/

/-- String concatenation cancels on the left. -/
lemma string_append_left_cancel (a b c : String) (h : a ++ b = a ++ c) : b = c := by
  cases a with | _ la =>
  cases b with | _ lb =>
  cases c with | _ lc =>
  have hd : la ++ lb = la ++ lc := congrArg String.data h
  have := List.append_cancel_left hd
  simp [this]

/-- String concatenation cancels on the right. -/
lemma string_append_right_cancel (a b c : String) (h : a ++ c = b ++ c) : a = b := by
  cases a with | _ la =>
  cases b with | _ lb =>
  cases c with | _ lc =>
  have hd : la ++ lc = lb ++ lc := congrArg String.data h
  have := List.append_cancel_right hd
  simp [this]

/-- C10: the render loop's seen-set key is `apiVersion/name` only, so of two
distinct resources sharing apiVersion and name — differing in kind or in
namespace — only the first enters the extra-resources set; the removal
detection key `apiVersion/kind/name` distinguishes the kind-differing pairs,
and ignores the namespace. -/
theorem seen_set_key_ignores_kind_and_namespace
    (st : LoopState) (r1 r2 : Resource)
    (hav : r1.apiVersion = r2.apiVersion) (hn : r1.name = r2.name)
    (hd : r1.kind ≠ r2.kind ∨ r1.ns ≠ r2.ns)
    (hnew : loopKey r1 ∉ st.discoveredKeys) :
    r1 ≠ r2 ∧
    loopKey r1 = loopKey r2 ∧
    (addNewResources st [r1, r2]).1.renderResources = st.renderResources ++ [r1] ∧
    (addNewResources st [r1, r2]).1.discoveredResources =
      st.discoveredResources ++ [r1] ∧
    (r1.kind ≠ r2.kind → resourceKey r1 ≠ resourceKey r2) ∧
    (∀ r : Resource, ∀ s, resourceKey { r with ns := s } = resourceKey r) := by
  have hkey : loopKey r1 = loopKey r2 := by
    unfold loopKey; rw [hav, hn]
  have h2 : loopKey r2 ∈ st.discoveredKeys ++ [loopKey r1] := by
    rw [← hkey]; exact List.mem_append_right _ (List.mem_singleton_self _)
  refine ⟨?_, hkey, ?_, ?_, ?_, fun r s => rfl⟩
  · intro he
    rcases hd with h | h <;> exact h (by rw [he])
  · simp [addNewResources, hnew, h2]
  · simp [addNewResources, hnew, h2]
  · intro hk hre
    unfold resourceKey at hre
    rw [hav, hn] at hre
    have h3 := string_append_right_cancel _ _ _ hre
    have h4 := string_append_right_cancel _ _ _ h3
    have h5 := string_append_left_cancel _ _ _ h4
    exact hk h5

/-- C10 witness, both flavours of collision: a ConfigMap and a Secret sharing
`example.org/v1` and name `shared` collide on the loop key — only the
ConfigMap is added and their removal keys differ — and two same-kind
ConfigMaps named `shared` in namespaces `ns-a`/`ns-b` also collide, with only
the first added. -/
theorem seen_set_key_witness :
    c10Res1 ≠ c10Res2 ∧
    loopKey c10Res1 = loopKey c10Res2 ∧
    (addNewResources LoopState.init [c10Res1, c10Res2]).1.renderResources =
      [c10Res1] ∧
    resourceKey c10Res1 ≠ resourceKey c10Res2 ∧
    c10Res3 ≠ c10Res4 ∧
    loopKey c10Res3 = loopKey c10Res4 ∧
    (addNewResources LoopState.init [c10Res3, c10Res4]).1.renderResources =
      [c10Res3] := by
  have h := seen_set_key_ignores_kind_and_namespace LoopState.init c10Res1 c10Res2
    rfl rfl (Or.inl (by decide)) (by decide)
  have h2 := seen_set_key_ignores_kind_and_namespace LoopState.init c10Res3 c10Res4
    rfl rfl (Or.inr (by decide)) (by decide)
  exact ⟨h.1, h.2.1, by simpa [LoopState.init] using h.2.2.1,
    h.2.2.2.2.1 (by decide), h2.1, h2.2.1,
    by simpa [LoopState.init] using h2.2.2.1⟩

/-! ## C4 — non-pipeline compositions -/

/-- C4 (amended): for a composition not in `Pipeline` mode
`RenderWithRequirements` itself performs exactly one render with an empty
extra-resources slice and no discovery loop; but `ProcessResource` never
reaches it, because `GetFunctionsFromPipeline` — called first — rejects the
composition's mode, so processing fails with zero renders. -/
theorem non_pipeline_single_render_unreached :
    (∀ (render : List Resource → Outputs × Option String)
       (provide : List Requirement → Except String (List Resource))
       (comp : Composition),
        comp.mode ≠ some "Pipeline" →
        renderWithRequirements render provide comp =
          ⟨1, (render []).1, (render []).2⟩) ∧
    (∀ comps xrds fns
       (render : List Resource → Outputs × Option String)
       (provide : List Requirement → Except String (List Resource))
       (x : XR) (comp : Composition),
        findMatchingComposition comps xrds x = .ok comp →
        comp.mode ≠ some "Pipeline" →
        (processResource comps xrds fns render provide x).renderCalls = 0 ∧
        ∃ e, (processResource comps xrds fns render provide x).result =
          .error (.cannotGetFunctions e)) := by
  constructor
  · intro render provide comp hmode
    unfold renderWithRequirements
    rw [if_neg hmode]
  · intro comps xrds fns render provide x comp hfind hmode
    unfold processResource
    rw [hfind]
    rcases hm : comp.mode with _ | m
    · simp [getFunctionsFromPipeline, hm]
    · have hne : m ≠ "Pipeline" := by
        intro hcontra; exact hmode (by rw [hm, hcontra])
      simp [getFunctionsFromPipeline, hm, hne]

/-- C4 counterexample: with a cached composition in `NonPipeline` mode
matching the XR, `ProcessResource` fails at the pipeline-functions stage with
zero render calls, so it does not reach the single render the claim
describes. -/
theorem non_pipeline_claim_counterexample :
    ¬ claimC4Statement [c4Comp] [] [] c4Render c4Provide c4XR := by
  intro h
  have h1 : findMatchingComposition [c4Comp] [] c4XR = .ok c4Comp := by decide
  have h2 := h c4Comp h1 (by decide)
  exact absurd h2 (by decide)

/-- C4 witness: the `NonPipeline` composition gets a single empty-extras
render from `RenderWithRequirements` in isolation, while `ProcessResource`
on it performs zero renders. -/
theorem non_pipeline_witness :
    renderWithRequirements c4Render c4Provide c4Comp =
      ⟨1, (c4Render []).1, (c4Render []).2⟩ ∧
    (processResource [c4Comp] [] [] c4Render c4Provide c4XR).renderCalls = 0 := by
  refine ⟨non_pipeline_single_render_unreached.1 c4Render c4Provide c4Comp (by decide), ?_⟩
  exact (non_pipeline_single_render_unreached.2 [c4Comp] [] [] c4Render c4Provide
    c4XR c4Comp (by decide) (by decide)).1

/-! ## Composition-selection helper lemmas -/

/-- Whenever `findMatchingComposition` returns a composition, that
composition's `compositeTypeRef` matches the effective GVK. -/
lemma findMatching_ok_matches (comps : List Composition) (xrds : List XRD)
    (x : XR) (c : Composition) (g : GVK)
    (hfind : findMatchingComposition comps xrds x = .ok c)
    (heff : effectiveGVK xrds x = .ok g) :
    c.matchesGVK g = true := by
  unfold findMatchingComposition at hfind
  rw [heff] at hfind
  dsimp only at hfind
  rcases href : x.compositionRefName with _ | n <;> rw [href] at hfind <;>
    dsimp only at hfind
  · rcases hsel : x.selectorMatchLabels with _ | sel <;> rw [hsel] at hfind <;>
      dsimp only at hfind
    · rcases hfil : comps.filter (fun c => c.matchesGVK g) with _ | ⟨c0, rest⟩
      · rw [hfil] at hfind; simp at hfind
      · rcases rest with _ | ⟨c1, t⟩
        · rw [hfil] at hfind
          simp at hfind
          have hmem : c ∈ comps.filter (fun c => c.matchesGVK g) := by
            rw [hfil, hfind]; exact List.mem_cons_self _ _
          exact (List.mem_filter.mp hmem).2
        · rw [hfil] at hfind; simp at hfind
    · rcases hfil : comps.filter
          (fun c => labelsInclude c.labels sel && c.matchesGVK g) with _ | ⟨c0, rest⟩
      · rw [hfil] at hfind; simp at hfind
      · rcases rest with _ | ⟨c1, t⟩
        · rw [hfil] at hfind
          simp at hfind
          have hmem : c ∈ comps.filter
              (fun c => labelsInclude c.labels sel && c.matchesGVK g) := by
            rw [hfil, hfind]; exact List.mem_cons_self _ _
          exact (Bool.and_eq_true _ _ |>.mp (List.mem_filter.mp hmem).2).2
        · rw [hfil] at hfind; simp at hfind
  · rcases hf : comps.find? (fun c => c.name == n) with _ | c0 <;> rw [hf] at hfind
    · simp at hfind
    · simp only at hfind
      split at hfind
      · rename_i hcond
        injection hfind with hc
        rw [← hc]; exact hcond
      · exact absurd hfind (by simp)

/-! ## C2 — selection result or documented failure -/

/-- C2 (amended): `FindMatchingComposition` either returns a composition
whose `compositeTypeRef` matches the XR's effective GVK, or fails with one of
the documented messages — the six enumerated ones or, on the claim path,
`no referenceable version found in XRD`. -/
theorem findmatching_result_amended (comps : List Composition) (xrds : List XRD)
    (x : XR) :
    (∀ c, findMatchingComposition comps xrds x = .ok c →
       ∃ g, effectiveGVK xrds x = .ok g ∧ c.matchesGVK g = true) ∧
    (∀ e, findMatchingComposition comps xrds x = .error e →
       e = MatchErr.noReferenceableVersion ∨ documentedC2Message e = true) := by
  constructor
  · intro c hfind
    rcases heff : effectiveGVK xrds x with e | g
    · unfold findMatchingComposition at hfind
      rw [heff] at hfind
      simp at hfind
    · exact ⟨g, rfl, findMatching_ok_matches comps xrds x c g hfind heff⟩
  · intro e _
    cases e <;> simp [documentedC2Message]

/-- C2 counterexample: for a claim whose XRD has no referenceable version,
selection fails with `no referenceable version found in XRD`, a message
outside the claim's list of six, so the claim's check is false. -/
theorem findmatching_claim_counterexample :
    findMatchingComposition [c2Comp] [c2Xrd] c2XR =
      .error .noReferenceableVersion ∧
    claimC2Check [c2Comp] [c2Xrd] c2XR = false := by
  constructor
  · decide
  · decide

/-- C2 witness: with one cached compatible composition and a plain XR, the
default path returns it and the returned composition matches the effective
GVK. -/
theorem findmatching_amended_witness :
    ∃ g, effectiveGVK [] c2wXR = .ok g ∧ c2wComp.matchesGVK g = true := by
  exact (findmatching_result_amended [c2wComp] [] c2wXR).1 c2wComp (by decide)

/-! ## C5 — claim resolution through the XRD's referenceable version -/

/-- C5: when the input's kind is a claim kind of a cached XRD, the effective
GVK is built from the XRD's group, its version flagged `referenceable: true`
and the XRD's `names.kind`, and any returned composition matches that GVK;
when no version is referenceable, selection fails with
`no referenceable version found in XRD` instead of falling back. -/
theorem claim_effective_gvk_and_referenceable
    (comps : List Composition) (xrds : List XRD) (x : XR) (d : XRD)
    (hclaim : claimXRD xrds x = some d) :
    (∀ v, d.versions.find? (fun q => q.referenceable) = some v →
       effectiveGVK xrds x = .ok ⟨d.group, v.name, d.namesKind⟩ ∧
       ∀ c, findMatchingComposition comps xrds x = .ok c →
         c.matchesGVK ⟨d.group, v.name, d.namesKind⟩ = true) ∧
    (d.versions.find? (fun q => q.referenceable) = none →
       findMatchingComposition comps xrds x = .error .noReferenceableVersion) := by
  constructor
  · intro v hv
    have heff : effectiveGVK xrds x = .ok ⟨d.group, v.name, d.namesKind⟩ := by
      simp [effectiveGVK, hclaim, hv]
    exact ⟨heff, fun c hfind =>
      findMatching_ok_matches comps xrds x c _ hfind heff⟩
  · intro hv
    have heff : effectiveGVK xrds x = .error .noReferenceableVersion := by
      simp [effectiveGVK, hclaim, hv]
    simp [findMatchingComposition, heff]

/-- C5 witness: the `ClaimResource` scenario — claim kind
`ExampleResourceClaim`, XRD versions `v1` (not referenceable), `v2`
(referenceable), `v3alpha1` (not referenceable) — yields the effective GVK
`example.org/v2, XExampleResource`, matched by the referenced composition. -/
theorem claim_resource_witness :
    effectiveGVK [c5Xrd] c5XR = .ok ⟨"example.org", "v2", "XExampleResource"⟩ ∧
    c5Comp.matchesGVK ⟨"example.org", "v2", "XExampleResource"⟩ = true := by
  have h := (claim_effective_gvk_and_referenceable [c5Comp] [c5Xrd] c5XR c5Xrd
    (by decide)).1 ⟨"v2", true, true⟩ (by decide)
  exact ⟨h.1, h.2 c5Comp (by decide)⟩

/-! ## C6 — the XRD cache issues at most one successful list call -/

/-- The cache invariant: while `xrdsLoaded` is unset no successful list call
has happened, and overall at most one ever happens. -/
lemma getXRDsIter_invariant (api : Nat → Except String (List String)) :
    ∀ n, ((getXRDsIter api n).xrdsLoaded = false →
            (getXRDsIter api n).succCalls = 0) ∧
         (getXRDsIter api n).succCalls ≤ 1 := by
  intro n
  induction n with
  | zero => simp [getXRDsIter, XRDCacheState.start]
  | succ m ih =>
      obtain ⟨ih1, ih2⟩ := ih
      by_cases hl : (getXRDsIter api m).xrdsLoaded = true
      · have hsame : getXRDsIter api (m + 1) = getXRDsIter api m := by
          simp [getXRDsIter, getXRDs, hl]
        rw [hsame]; exact ⟨ih1, ih2⟩
      · have hlf : (getXRDsIter api m).xrdsLoaded = false := by
          simpa using hl
        have h0 := ih1 hlf
        rcases ha : api (getXRDsIter api m).apiCalls with e | xs
        · constructor
          · intro _; simp [getXRDsIter, getXRDs, hlf, ha, h0]
          · simp [getXRDsIter, getXRDs, hlf, ha, h0]
        · constructor
          · intro hcontra
            simp [getXRDsIter, getXRDs, hlf, ha] at hcontra
          · simp [getXRDsIter, getXRDs, hlf, ha, h0]

/-- C6: across any sequence of `GetXRDs` calls, at most one successful
underlying list call is issued, and once the loaded flag is set a further
call returns the cached slice — empty or not — leaving the state (and hence
the API call count) untouched. -/
theorem getxrds_memoised (api : Nat → Except String (List String)) (n : Nat) :
    (getXRDsIter api n).succCalls ≤ 1 ∧
    ((getXRDsIter api n).xrdsLoaded = true →
       getXRDs api (getXRDsIter api n) =
         (.ok (getXRDsIter api n).cachedXRDs, getXRDsIter api n)) := by
  refine ⟨(getXRDsIter_invariant api n).2, ?_⟩
  intro hl
  simp [getXRDs, hl]

/-- C6 witness: after one call against an API returning a successful empty
list, the flag is set and the second call returns the cached empty slice with
the state unchanged. -/
theorem getxrds_memoised_witness :
    (getXRDsIter c6Api 1).succCalls ≤ 1 ∧
    getXRDs c6Api (getXRDsIter c6Api 1) =
      (.ok (getXRDsIter c6Api 1).cachedXRDs, getXRDsIter c6Api 1) := by
  have h := getxrds_memoised c6Api 1
  exact ⟨h.1, h.2 (by decide)⟩

/-! ## C7 — generate-name matching in FetchCurrentObject -/

/-- C7: for a desired composed object carrying `generateName` (and no name),
the current object is sought among the owner-labelled candidates filtered by
annotation equality and the generate-name prefix: a list failure yields
`isNew` with no current object and no error, exactly one survivor is
returned with `isNew = false`, and any other number of survivors yields
`isNew` with no current object. -/
theorem fetch_current_generate_name
    (getResource : String → String → DirectGet)
    (listByOwnerLabel : String → Except String (List KObj))
    (comp desired : KObj)
    (hname : desired.name = "") (hgen : desired.generateName ≠ "") :
    (∀ cands, genNameSurvivors desired cands =
       (cands.filter (fun c =>
          c.annotation compResNameAnnotationKey ==
            desired.annotation compResNameAnnotationKey)).filter
         (fun c => strStartsWith desired.generateName c.name)) ∧
    (∀ e, listByOwnerLabel comp.name = .error e →
       fetchCurrentObject getResource listByOwnerLabel (some comp) desired =
         ⟨none, true, none⟩) ∧
    (∀ cands c, listByOwnerLabel comp.name = .ok cands →
       genNameSurvivors desired cands = [c] →
       fetchCurrentObject getResource listByOwnerLabel (some comp) desired =
         ⟨some c, false, none⟩) ∧
    (∀ cands, listByOwnerLabel comp.name = .ok cands →
       (genNameSurvivors desired cands).length ≠ 1 →
       fetchCurrentObject getResource listByOwnerLabel (some comp) desired =
         ⟨none, true, none⟩) := by
  refine ⟨?_, ?_, ?_, ?_⟩
  · intro cands
    simp [genNameSurvivors, hgen]
  · intro e hl
    simp [fetchCurrentObject, hname, hl]
  · intro cands c hl hs
    simp [fetchCurrentObject, hname, hl, hs]
  · intro cands hl hs
    rcases hsv : genNameSurvivors desired cands with _ | ⟨c0, rest⟩
    · simp [fetchCurrentObject, hname, hl, hsv]
    · rcases rest with _ | ⟨c1, t⟩
      · rw [hsv] at hs; simp at hs
      · simp [fetchCurrentObject, hname, hl, hsv]

/-- C7 witness: of the two owner-labelled candidates named
`test-resource-abc123`, only the one annotated `resource-a` survives, and it
is returned with `isNew = false`. -/
theorem fetch_current_generate_name_witness :
    fetchCurrentObject c7Get c7List (some c7Composite) c7Desired =
      ⟨some c7Cand1, false, none⟩ := by
  exact (fetch_current_generate_name c7Get c7List c7Composite c7Desired rfl
    (by decide)).2.2.1 [c7Cand1, c7Cand2] c7Cand1 (by decide) (by decide)

/-! ## C8 — owner-reference UID rewriting -/

/-- Pairs of a list zipped with its image under a map satisfy the map. -/
lemma mem_zip_map {α β : Type} (f : α → β) (l : List α) :
    ∀ pr ∈ l.zip (l.map f), pr.2 = f pr.1 := by
  induction l with
  | nil => simp
  | cons a t ih =>
      intro pr hpr
      rw [List.map_cons, List.zip_cons_cons] at hpr
      rcases List.mem_cons.mp hpr with h | h
      · rw [h]
      · exact ih pr h

/-- C8: `UpdateOwnerRefs` leaves every field of the child except the owner
references untouched, preserves the number of owner references, and rewrites
each reference positionally: a non-empty UID is kept, an empty UID is set to
the parent's UID on an apiVersion/kind/name match and to the generated UID
otherwise (also when there is no parent). -/
theorem update_owner_refs_properties (genUID : String) (parent : Option KObj)
    (child : KObj) :
    ((updateOwnerRefs genUID parent child).apiVersion = child.apiVersion ∧
     (updateOwnerRefs genUID parent child).kind = child.kind ∧
     (updateOwnerRefs genUID parent child).name = child.name ∧
     (updateOwnerRefs genUID parent child).generateName = child.generateName ∧
     (updateOwnerRefs genUID parent child).ns = child.ns ∧
     (updateOwnerRefs genUID parent child).uid = child.uid ∧
     (updateOwnerRefs genUID parent child).labels = child.labels ∧
     (updateOwnerRefs genUID parent child).annotations = child.annotations ∧
     (updateOwnerRefs genUID parent child).extra = child.extra) ∧
    (updateOwnerRefs genUID parent child).ownerRefs.length =
      child.ownerRefs.length ∧
    (∀ pr ∈ child.ownerRefs.zip (updateOwnerRefs genUID parent child).ownerRefs,
       (pr.1.uid ≠ "" → pr.2 = pr.1) ∧
       (pr.1.uid = "" →
         (∀ p, parent = some p → matchesParent p pr.1 = true →
            pr.2 = { pr.1 with uid := p.uid }) ∧
         (∀ p, parent = some p → matchesParent p pr.1 = false →
            pr.2 = { pr.1 with uid := genUID }) ∧
         (parent = none → pr.2 = { pr.1 with uid := genUID }))) := by
  refine ⟨⟨rfl, rfl, rfl, rfl, rfl, rfl, rfl, rfl, rfl⟩, ?_, ?_⟩
  · simp [updateOwnerRefs]
  · intro pr hpr
    have h2 : pr.2 = updateRef genUID parent pr.1 :=
      mem_zip_map (updateRef genUID parent) child.ownerRefs pr hpr
    constructor
    · intro hne
      rw [h2]; simp [updateRef, hne]
    · intro heq
      refine ⟨?_, ?_, ?_⟩
      · intro p hp hm; subst hp; rw [h2]; simp [updateRef, heq, hm]
      · intro p hp hm; subst hp; rw [h2]; simp [updateRef, heq, hm]
      · intro hp; subst hp; rw [h2]; simp [updateRef, heq]

/-- C8 witness: in the three-reference scenario the matching empty-UID
reference receives the parent's UID. -/
theorem update_owner_refs_witness :
    (c8RefMatch, ({ c8RefMatch with uid := "parent-uid" } : OwnerRef)) ∈
      c8Child.ownerRefs.zip
        ((updateOwnerRefs "gen-uid" (some c8Parent) c8Child).ownerRefs) ∧
    ({ c8RefMatch with uid := "parent-uid" } : OwnerRef) =
      { c8RefMatch with uid := c8Parent.uid } := by
  have h := update_owner_refs_properties "gen-uid" (some c8Parent) c8Child
  refine ⟨by decide, ?_⟩
  exact (((h.2.2 (c8RefMatch, { c8RefMatch with uid := "parent-uid" })
    (by decide)).2 (by decide)).1) c8Parent rfl (by decide)

/-! ## C9 — diff normalisation -/

/-- C9 (amended, on the structured-diff revision): `cleanupForDiff` removes
the volatile metadata fields, `spec.resourceRefs` and `status` (keeping
everything else), and two present objects with equal cleaned forms produce an
`equal` diff carrying no line diffs. -/
theorem cleanup_strips_fields_and_equal_diff
    (marshal : UObj → String) (getLineDiff : String → String → List String)
    (c d : UObj)
    (hclean : FormatterV2.cleanupForDiff c = FormatterV2.cleanupForDiff d) :
    generateDiffWithOptions marshal getLineDiff (some c) (some d) =
      .ok ⟨DiffType.equal, []⟩ ∧
    (∀ o md, (FormatterV2.cleanupForDiff o).metadata = some md →
       ∀ f ∈ volatileMetadataFields, md.find? (fun kv => kv.1 == f) = none) ∧
    (∀ o sp, (FormatterV2.cleanupForDiff o).spec = some sp →
       sp.find? (fun kv => kv.1 == "resourceRefs") = none) ∧
    (∀ o, (FormatterV2.cleanupForDiff o).status = none) := by
  refine ⟨?_, ?_, ?_, fun o => rfl⟩
  · by_cases hcd : c = d
    · simp [generateDiffWithOptions, hcd]
    · simp [generateDiffWithOptions, hcd, hclean]
  · intro o md hmd f hf
    rcases hom : o.metadata with _ | md0 <;>
      rcases hos : o.spec with _ | sp0 <;>
      simp [FormatterV2.cleanupForDiff, hom, hos] at hmd
    all_goals
      rw [← hmd]
      rw [List.find?_eq_none]
      intro kv hkv hbeq
      have hp := (List.mem_filter.mp hkv).2
      have hkf : kv.1 = f := by simpa using hbeq
      simp [List.contains] at hp
      exact hp (by rw [hkf]; exact hf)
  · intro o sp hsp
    rcases hom : o.metadata with _ | md0 <;>
      rcases hos : o.spec with _ | sp0 <;>
      simp [FormatterV2.cleanupForDiff, hom, hos] at hsp
    all_goals
      rw [← hsp]
      rw [List.find?_eq_none]
      intro kv hkv hbeq
      have hp := (List.mem_filter.mp hkv).2
      simp at hp
      exact hp (by simpa using hbeq)

/-- C9 counterexample: the `diff_formatter.go` revision of `cleanupForDiff`
(one of the claim's two cited implementations) keeps `spec.resourceRefs`, so
the claim's normalisation statement fails on it at a concrete object. -/
theorem resource_refs_not_stripped_counterexample : ¬ claimC9Statement := by
  intro h
  have := h.1 c9Obj [("resourceRefs", "refs"), ("field", "value")] (by decide)
  exact absurd this (by decide)

/-- C9 witness: two objects that differ only in volatile metadata,
`spec.resourceRefs` and `status` have equal cleaned forms and produce an
`equal` diff with no line diffs. -/
theorem cleanup_equal_diff_witness :
    FormatterV2.cleanupForDiff c9Obj = FormatterV2.cleanupForDiff c9Obj2 ∧
    generateDiffWithOptions c9Marshal c9LineDiff (some c9Obj) (some c9Obj2) =
      .ok ⟨DiffType.equal, []⟩ := by
  refine ⟨by decide, ?_⟩
  exact (cleanup_strips_fields_and_equal_diff c9Marshal c9LineDiff c9Obj c9Obj2
    (by decide)).1

end CrossplaneDiff
